import Mathlib

/-
Verification of the WaveSpeedAI python client examples against their
specification.  The repository ships three example scripts
(generate_image.py, async_generate_image.py, async_create_generate_image.py)
that drive a Wavespeed client: create an image-generation job, poll it to a
terminal status, print the outputs, and close the client.  The client
library itself (Job handle, reload, run, close) is not part of the shipped
sources; where a claim depends on it, the corresponding definition is
modelled from the spec and marked as such in its doc comment.
-/

/-- Named links returned by the service for a job.  The example scripts read
the status-check link as the field named get (prediction.urls.get). -/
structure Urls where
  get : String
deriving DecidableEq, Repr

/-- The Job value object mirrored from the remote service: opaque id, status
string, ordered output URLs, optional error message, and the link map.
These are exactly the fields the example scripts read on a prediction. -/
structure Job where
  id : String
  status : String
  outputs : List String
  error : Option String
  urls : Urls
deriving DecidableEq, Repr

/-- The guard list of create_and_poll_image: the polling loop runs while
the job status is not in this list (source line:
while prediction.status not in ['completed', 'error']). -/
def terminalList : List String := ["completed", "error"]

/-- Membership test of a status in the terminal list, mirroring the python
`in` test of the loop guard. -/
def statusIsTerminal (s : String) : Bool := terminalList.contains s

/-- Observable actions performed by the polling loop body: the
asyncio.sleep of the configured interval, and the async_reload call. -/
inductive PollAction where
  | sleep (seconds : Nat)
  | reload
deriving DecidableEq, Repr

/-- The polling loop of create_and_poll_image (and, per the spec, the inner
loop of run).  Source:

    while prediction.status not in ['completed', 'error']:
        await asyncio.sleep(client.poll_interval)
        await prediction.async_reload()

The reload overwrites the local job wholesale from the server response
(spec 4.2); the server responses are abstracted as `transport k`, the job
returned by the k-th reload.  `fuel` bounds the number of iterations we
unroll (the python loop itself is unbounded); the result is the trace of
(local job at that moment, action) pairs together with `some` final job
when the guard failed within fuel, `none` when fuel ran out first. -/
def pollLoop (pollInterval : Nat) (transport : Nat → Job) (fuel reloadCount : Nat)
    (j : Job) : List (Job × PollAction) × Option Job :=
  if statusIsTerminal j.status then ([], some j)
  else
    match fuel with
    | 0 => ([], none)
    | fuel' + 1 =>
      let r := pollLoop pollInterval transport fuel' (reloadCount + 1) (transport reloadCount)
      ((j, PollAction.sleep pollInterval) :: (j, PollAction.reload) :: r.1, r.2)

/-- Modelled from the spec: run (missing from the shipped sources) blocks
until the job is terminal, "internally looping: create, then repeatedly
wait poll_interval and reload, returning the final Job" (spec 4.1).
`createResp` is the job returned by the create call; the loop that follows
is the same polling loop as in create_and_poll_image. -/
def run (pollInterval : Nat) (createResp : Job) (transport : Nat → Job)
    (fuel : Nat) : List (Job × PollAction) × Option Job :=
  pollLoop pollInterval transport fuel 0 createResp

/-- Unfolding lemma: when the status is terminal the loop exits at once,
with an empty trace, whatever the fuel. -/
theorem pollLoop_terminal (pollInterval : Nat) (transport : Nat → Job)
    (fuel reloadCount : Nat) (j : Job) (h : statusIsTerminal j.status = true) :
    pollLoop pollInterval transport fuel reloadCount j = ([], some j) := by
  unfold pollLoop
  simp [h]

/-- Unfolding lemma: a nonterminal status with no fuel left yields an empty
trace and no result. -/
theorem pollLoop_zero (pollInterval : Nat) (transport : Nat → Job)
    (reloadCount : Nat) (j : Job) (h : statusIsTerminal j.status = false) :
    pollLoop pollInterval transport 0 reloadCount j = ([], none) := by
  unfold pollLoop
  simp [h]

/-- Unfolding lemma: a nonterminal status with fuel left performs one
sleep of the configured interval and one reload, then continues from the
job the reload fetched. -/
theorem pollLoop_succ (pollInterval : Nat) (transport : Nat → Job)
    (fuel reloadCount : Nat) (j : Job) (h : statusIsTerminal j.status = false) :
    pollLoop pollInterval transport (fuel + 1) reloadCount j =
      ((j, PollAction.sleep pollInterval) :: (j, PollAction.reload) ::
        (pollLoop pollInterval transport fuel (reloadCount + 1) (transport reloadCount)).1,
       (pollLoop pollInterval transport fuel (reloadCount + 1) (transport reloadCount)).2) := by
  conv_lhs => unfold pollLoop
  simp [h]

/-- Concrete link map used by the stub transports below. -/
def urlsStub : Urls := { get := "https://api.wavespeed.ai/predictions/p1" }

/-- A stub job whose status is still processing (non-terminal). -/
def jobProcessingStub : Job :=
  { id := "p1", status := "processing", outputs := [], error := none, urls := urlsStub }

/-- A stub job that has completed with one output URL. -/
def jobCompletedStub : Job :=
  { id := "p1", status := "completed", outputs := ["https://cdn.wavespeed.ai/img1.png"],
    error := none, urls := urlsStub }

/-- A stub transport whose every reload reports the completed job. -/
def transportCompleted : Nat → Job := fun _ => jobCompletedStub

/-- A stub transport reporting processing on the first reload and completed
afterwards; together with a processing create response it realises the
"processing twice then completed" scenario of the spec. -/
def transportTwiceProcessing : Nat → Job := fun k =>
  if k == 0 then jobProcessingStub else jobCompletedStub

/-- The spec's Job invariant (section 3 and section 8): outputs non-empty
only when completed, error non-empty only when the status is error, never
both, and both empty while the status is non-terminal. -/
def wf (j : Job) : Prop :=
  (j.outputs ≠ [] → j.status = "completed") ∧
  (j.error ≠ none → j.status = "error") ∧
  ¬(j.outputs ≠ [] ∧ j.error ≠ none) ∧
  (statusIsTerminal j.status = false → j.outputs = [] ∧ j.error = none)

instance (j : Job) : Decidable (wf j) := by
  unfold wf
  infer_instance

/-- Modelled from the spec: the tagged remote state the service reports
(spec section 9: Queued, Processing, Completed(outputs), Failed(error)),
which reload mirrors wholesale into the Job fields. -/
inductive RemoteState where
  | queued
  | processing
  | completed (outputs : List String)
  | failed (msg : String)
deriving DecidableEq, Repr

/-- Modelled from the spec: how a remote state report is mirrored into the
Job fields on create or reload (spec sections 3 and 9): outputs are
populated only on completion, the error message only on failure. -/
def RemoteState.toJob (id : String) (urls : Urls) : RemoteState → Job
  | RemoteState.queued =>
      { id := id, status := "queued", outputs := [], error := none, urls := urls }
  | RemoteState.processing =>
      { id := id, status := "processing", outputs := [], error := none, urls := urls }
  | RemoteState.completed outs =>
      { id := id, status := "completed", outputs := outs, error := none, urls := urls }
  | RemoteState.failed msg =>
      { id := id, status := "error", outputs := [], error := some msg, urls := urls }

theorem toJob_wf (id : String) (urls : Urls) (s : RemoteState) :
    wf (RemoteState.toJob id urls s) := by
  cases s <;>
    simp [wf, RemoteState.toJob, statusIsTerminal, terminalList]

theorem pollLoop_wf (pollInterval : Nat) (transport : Nat → Job)
    (hT : ∀ m, wf (transport m)) :
    ∀ fuel reloadCount j, wf j →
      (∀ e ∈ (pollLoop pollInterval transport fuel reloadCount j).1, wf e.1) ∧
      (∀ jr, (pollLoop pollInterval transport fuel reloadCount j).2 = some jr → wf jr) := by
  intro fuel
  induction fuel with
  | zero =>
    intro reloadCount j hj
    cases h : statusIsTerminal j.status with
    | false => simp [pollLoop_zero _ _ _ _ h]
    | true =>
      refine ⟨by simp [pollLoop_terminal _ _ _ _ _ h], ?_⟩
      intro jr hjr
      rw [pollLoop_terminal _ _ _ _ _ h] at hjr
      simp at hjr
      exact hjr ▸ hj
  | succ fuel ih =>
    intro reloadCount j hj
    cases h : statusIsTerminal j.status with
    | false =>
      have hrest := ih (reloadCount + 1) (transport reloadCount) (hT reloadCount)
      constructor
      · intro e he
        rw [pollLoop_succ _ _ _ _ _ h] at he
        simp at he
        rcases he with he | he | he
        · exact he ▸ hj
        · exact he ▸ hj
        · exact hrest.1 e he
      · intro jr hjr
        rw [pollLoop_succ _ _ _ _ _ h] at hjr
        exact hrest.2 jr hjr
    | true =>
      refine ⟨by simp [pollLoop_terminal _ _ _ _ _ h], ?_⟩
      intro jr hjr
      rw [pollLoop_terminal _ _ _ _ _ h] at hjr
      simp at hjr
      exact hjr ▸ hj

/-- C1: every Job observed at any point of the execution satisfies the
invariant: outputs non-empty only when status is completed, error non-empty
only when status is error, never both non-empty, and both empty while the
status is non-terminal.  Part one: every job mirrored from a remote state
report satisfies the invariant.  Part two: the invariant holds at every
point of the polling loop (every job in the trace and the final job),
provided the create response and every reload response satisfy it. -/
theorem job_state_invariant :
    (∀ id urls s, wf (RemoteState.toJob id urls s)) ∧
    (∀ pollInterval transport fuel reloadCount j, wf j → (∀ m, wf (transport m)) →
      (∀ e ∈ (pollLoop pollInterval transport fuel reloadCount j).1, wf e.1) ∧
      (∀ jr, (pollLoop pollInterval transport fuel reloadCount j).2 = some jr → wf jr)) :=
  ⟨toJob_wf, fun pollInterval transport fuel reloadCount j hj hT =>
    pollLoop_wf pollInterval transport hT fuel reloadCount j hj⟩

/-- Witness for C1: the completed stub job returned by a concrete two-step
run of the polling loop satisfies the invariant. -/
theorem job_state_invariant_witness : wf jobCompletedStub :=
  (job_state_invariant.2 1 transportCompleted 2 0 jobProcessingStub
      (by decide) (fun _ => (by decide : wf jobCompletedStub))).2 jobCompletedStub (by decide)

theorem pollLoop_trace_nonterminal (pollInterval : Nat) (transport : Nat → Job) :
    ∀ fuel reloadCount j,
      ∀ e ∈ (pollLoop pollInterval transport fuel reloadCount j).1,
        statusIsTerminal e.1.status = false := by
  intro fuel
  induction fuel with
  | zero =>
    intro reloadCount j e he
    cases h : statusIsTerminal j.status with
    | false => rw [pollLoop_zero _ _ _ _ h] at he; simp at he
    | true => rw [pollLoop_terminal _ _ _ _ _ h] at he; simp at he
  | succ fuel ih =>
    intro reloadCount j e he
    cases h : statusIsTerminal j.status with
    | false =>
      rw [pollLoop_succ _ _ _ _ _ h] at he
      simp at he
      rcases he with he | he | he
      · rw [he]; exact h
      · rw [he]; exact h
      · exact ih (reloadCount + 1) (transport reloadCount) e he
    | true => rw [pollLoop_terminal _ _ _ _ _ h] at he; simp at he

/-- C2: in the polling loop of create_and_poll_image, a reload is issued
only while the job's local status is neither completed nor error (every
reload entry of the trace carries a non-terminal job), and as soon as the
status is terminal the loop exits at once, with no further sleep or reload
action, returning the current job. -/
theorem poll_reload_only_nonterminal (pollInterval : Nat) (transport : Nat → Job)
    (fuel reloadCount : Nat) (j : Job) :
    (∀ e ∈ (pollLoop pollInterval transport fuel reloadCount j).1,
        e.2 = PollAction.reload → statusIsTerminal e.1.status = false) ∧
    (statusIsTerminal j.status = true →
        pollLoop pollInterval transport fuel reloadCount j = ([], some j)) :=
  ⟨fun e he _ => pollLoop_trace_nonterminal pollInterval transport fuel reloadCount j e he,
   fun h => pollLoop_terminal pollInterval transport fuel reloadCount j h⟩

/-- Witness for C2: a concrete reload entry of a concrete loop trace has a
non-terminal status, and the loop started on a completed job exits at once. -/
theorem poll_reload_only_nonterminal_witness :
    statusIsTerminal jobProcessingStub.status = false ∧
    pollLoop 1 transportCompleted 3 0 jobCompletedStub = ([], some jobCompletedStub) :=
  ⟨(poll_reload_only_nonterminal 1 transportCompleted 1 0 jobProcessingStub).1
      (jobProcessingStub, PollAction.reload) (by decide) rfl,
   (poll_reload_only_nonterminal 1 transportCompleted 3 0 jobCompletedStub).2 (by decide)⟩

theorem statusIsTerminal_eq_false (s : String)
    (h1 : s ≠ "completed") (h2 : s ≠ "error") : statusIsTerminal s = false := by
  simp [statusIsTerminal, terminalList, h1, h2]

theorem pollLoop_nonterminal_forever (pollInterval : Nat) (transport : Nat → Job)
    (s : String) (hs : statusIsTerminal s = false)
    (hT : ∀ m, (transport m).status = s) :
    ∀ fuel reloadCount j, j.status = s →
      (pollLoop pollInterval transport fuel reloadCount j).2 = none ∧
      (pollLoop pollInterval transport fuel reloadCount j).1.length = 2 * fuel := by
  intro fuel
  induction fuel with
  | zero =>
    intro reloadCount j hj
    rw [pollLoop_zero _ _ _ _ (hj ▸ hs)]
    simp
  | succ fuel ih =>
    intro reloadCount j hj
    rw [pollLoop_succ _ _ _ _ _ (hj ▸ hs)]
    have hrest := ih (reloadCount + 1) (transport reloadCount) (hT reloadCount)
    refine ⟨hrest.1, ?_⟩
    simp [hrest.2]
    ring

/-- C9: the polling loop exits only on the exact status strings completed
and error: any other status string (such as failed) keeps the guard true,
and if the server keeps reporting such a status the loop never produces a
result, performing one sleep and one reload per unit of fuel without
bound. -/
theorem poll_guard_exact_strings (s : String)
    (h1 : s ≠ "completed") (h2 : s ≠ "error") :
    statusIsTerminal s = false ∧
    (∀ pollInterval transport fuel reloadCount j, j.status = s →
      (∀ m, (transport m).status = s) →
      (pollLoop pollInterval transport fuel reloadCount j).2 = none ∧
      (pollLoop pollInterval transport fuel reloadCount j).1.length = 2 * fuel) :=
  ⟨statusIsTerminal_eq_false s h1 h2,
   fun pollInterval transport fuel reloadCount j hj hT =>
    pollLoop_nonterminal_forever pollInterval transport s
      (statusIsTerminal_eq_false s h1 h2) hT fuel reloadCount j hj⟩

/-- A stub job whose status is the string failed, which is not in the
terminal list of the loop guard. -/
def jobFailedStatusStub : Job :=
  { id := "p1", status := "failed", outputs := [], error := none, urls := urlsStub }

/-- A stub transport whose every reload reports the failed-status job. -/
def transportFailedStatus : Nat → Job := fun _ => jobFailedStatusStub

/-- Witness for C9: with every report carrying the status failed, the loop
guard is never terminal and three units of fuel are burnt with no result
and six trace entries. -/
theorem poll_guard_exact_strings_witness :
    statusIsTerminal "failed" = false ∧
    (pollLoop 1 transportFailedStatus 3 0 jobFailedStatusStub).2 = none ∧
    (pollLoop 1 transportFailedStatus 3 0 jobFailedStatusStub).1.length = 2 * 3 :=
  ⟨(poll_guard_exact_strings "failed" (by decide) (by decide)).1,
   (poll_guard_exact_strings "failed" (by decide) (by decide)).2
      1 transportFailedStatus 3 0 jobFailedStatusStub rfl (fun _ => rfl)⟩

/-- Fixed-interval polling shape: n repetitions of the block sleep
poll_interval then reload, the only action pattern the loop can emit. -/
def sleepReloadBlocks (pollInterval : Nat) : Nat → List PollAction
  | 0 => []
  | n + 1 => PollAction.sleep pollInterval :: PollAction.reload ::
      sleepReloadBlocks pollInterval n

theorem pollLoop_actions_blocks (pollInterval : Nat) (transport : Nat → Job) :
    ∀ fuel reloadCount j, ∃ n,
      ((pollLoop pollInterval transport fuel reloadCount j).1).map Prod.snd =
        sleepReloadBlocks pollInterval n := by
  intro fuel
  induction fuel with
  | zero =>
    intro reloadCount j
    refine ⟨0, ?_⟩
    cases h : statusIsTerminal j.status with
    | false => rw [pollLoop_zero _ _ _ _ h]; rfl
    | true => rw [pollLoop_terminal _ _ _ _ _ h]; rfl
  | succ fuel ih =>
    intro reloadCount j
    cases h : statusIsTerminal j.status with
    | false =>
      obtain ⟨n, hn⟩ := ih (reloadCount + 1) (transport reloadCount)
      refine ⟨n + 1, ?_⟩
      rw [pollLoop_succ _ _ _ _ _ h]
      simp [sleepReloadBlocks, hn]
    | true => exact ⟨0, by rw [pollLoop_terminal _ _ _ _ _ h]; rfl⟩

/-- C3: the wait between reloads is a fixed interval, not exponential
backoff: the action sequence of any run is some number of repetitions of
the block (sleep poll_interval, reload), so every reload is preceded by
exactly one wait of the configured interval; and the concrete run whose
transport reports processing twice and then completed performs exactly two
reloads, each preceded by one wait of the configured interval 2, returning
the completed job. -/
theorem run_fixed_interval_polling :
    (∀ pollInterval createResp transport fuel, ∃ n,
      ((run pollInterval createResp transport fuel).1).map Prod.snd =
        sleepReloadBlocks pollInterval n) ∧
    ((run 2 jobProcessingStub transportTwiceProcessing 10).1).map Prod.snd =
      [PollAction.sleep 2, PollAction.reload, PollAction.sleep 2, PollAction.reload] ∧
    (run 2 jobProcessingStub transportTwiceProcessing 10).2 = some jobCompletedStub :=
  ⟨fun pollInterval createResp transport fuel =>
    pollLoop_actions_blocks pollInterval transport fuel 0 createResp,
   by decide, by decide⟩

/-- C4: when the create call already returns a job with status completed,
run returns that job unchanged with an empty trace: zero reloads, zero
waits, and the outputs are exactly the creation response's payload. -/
theorem run_immediate_completed (pollInterval : Nat) (createResp : Job)
    (transport : Nat → Job) (fuel : Nat) (h : createResp.status = "completed") :
    run pollInterval createResp transport fuel = ([], some createResp) ∧
    Option.map Job.outputs (run pollInterval createResp transport fuel).2 =
      some createResp.outputs := by
  have ht : statusIsTerminal createResp.status = true := by
    rw [h]; decide
  have hrun : run pollInterval createResp transport fuel = ([], some createResp) :=
    pollLoop_terminal pollInterval transport fuel 0 createResp ht
  exact ⟨hrun, by rw [hrun]; rfl⟩

/-- Witness for C4: a run created already completed performs no action and
hands back the stub payload. -/
theorem run_immediate_completed_witness :
    run 3 jobCompletedStub transportTwiceProcessing 5 = ([], some jobCompletedStub) ∧
    Option.map Job.outputs (run 3 jobCompletedStub transportTwiceProcessing 5).2 =
      some jobCompletedStub.outputs :=
  run_immediate_completed 3 jobCompletedStub transportTwiceProcessing 5 rfl

/-- Transport-level failure raised by the client on network or HTTP errors
(spec section 7 taxonomy). -/
inductive RequestError where
  | transportFailure (msg : String)
deriving DecidableEq, Repr

/-- The body of a status-check response: the fields reload mirrors into the
Job (spec 4.2: updates status, outputs, error and urls in place). -/
structure StatusResponse where
  status : String
  outputs : List String
  error : Option String
  urls : Urls
deriving DecidableEq, Repr

/-- Modelled from the spec: reload and async_reload (missing from the
shipped sources) issue a status-check request keyed by the job's id and
overwrite status, outputs, error and urls from the response; on transport
failure they fail with RequestError and leave the previous state unchanged
(spec 4.2).  The pair returned is the job state after the call together
with the error, if any. -/
def async_reload (transport : String → Except RequestError StatusResponse)
    (j : Job) : Job × Option RequestError :=
  match transport j.id with
  | Except.error e => (j, some e)
  | Except.ok r =>
      ({ j with status := r.status, outputs := r.outputs,
                error := r.error, urls := r.urls }, none)

/-- C5: when the status-check transport fails with a RequestError, every
field of the job handle — id, status, outputs, error, urls — retains its
value from before the call, and the error is reported. -/
theorem reload_failure_preserves_state
    (transport : String → Except RequestError StatusResponse) (j : Job)
    (e : RequestError) (h : transport j.id = Except.error e) :
    (async_reload transport j).1.id = j.id ∧
    (async_reload transport j).1.status = j.status ∧
    (async_reload transport j).1.outputs = j.outputs ∧
    (async_reload transport j).1.error = j.error ∧
    (async_reload transport j).1.urls = j.urls ∧
    (async_reload transport j).2 = some e := by
  simp [async_reload, h]

/-- A stub status-check transport that always fails at the network level. -/
def transportDown : String → Except RequestError StatusResponse :=
  fun _ => Except.error (RequestError.transportFailure "connection refused")

/-- Witness for C5: a failing reload of the processing stub job leaves all
five fields unchanged and surfaces the transport error. -/
theorem reload_failure_preserves_state_witness :
    (async_reload transportDown jobProcessingStub).1.id = jobProcessingStub.id ∧
    (async_reload transportDown jobProcessingStub).1.status = jobProcessingStub.status ∧
    (async_reload transportDown jobProcessingStub).1.outputs = jobProcessingStub.outputs ∧
    (async_reload transportDown jobProcessingStub).1.error = jobProcessingStub.error ∧
    (async_reload transportDown jobProcessingStub).1.urls = jobProcessingStub.urls ∧
    (async_reload transportDown jobProcessingStub).2 =
      some (RequestError.transportFailure "connection refused") :=
  reload_failure_preserves_state transportDown jobProcessingStub
    (RequestError.transportFailure "connection refused") rfl

/-- Resolution of args.api_key in the example main functions: the --api-key
argument when given, else the WAVESPEED_API_KEY environment variable
(argparse default=os.environ.get), else absent. -/
def args_api_key (cliKey envKey : Option String) : Option String :=
  match cliKey with
  | some k => some k
  | none => envKey

/-- Python truthiness of the optional api-key string as tested by
`if not args.api_key`: None and the empty string are falsy. -/
def optStrFalsy (k : Option String) : Bool :=
  match k with
  | none => true
  | some s => s == ""

/-- Events of the example main functions that matter to startup: printing,
exiting, constructing the client (after which network calls can happen),
and an attempted network call. -/
inductive MainEv where
  | printed (msg : String)
  | exited (code : Nat)
  | clientConstructed
  | networkAttempt
deriving DecidableEq, Repr

/-- The error message printed by the example scripts when the api key is
missing. -/
def apiKeyErrorMsg : String :=
  "Error: API key is required. Provide it with --api-key or set WAVESPEED_API_KEY environment variable."

/-- The startup sequence of the example main functions: if the resolved
api key is falsy, print the error and exit with code 1; otherwise
construct the client and continue with the rest of main (which is where
any network call can occur). -/
def mainStartup (cliKey envKey : Option String) (restOfMain : List MainEv) :
    List MainEv :=
  if optStrFalsy (args_api_key cliKey envKey) then
    [MainEv.printed apiKeyErrorMsg, MainEv.exited 1]
  else
    MainEv.clientConstructed :: restOfMain

/-- C6: when no --api-key argument and no WAVESPEED_API_KEY environment
variable are supplied, main prints the error and exits with code 1, and no
network call is ever attempted, whatever the rest of main would have
done. -/
theorem missing_api_key_fatal_before_network (cliKey envKey : Option String)
    (restOfMain : List MainEv) (h1 : cliKey = none) (h2 : envKey = none) :
    mainStartup cliKey envKey restOfMain =
      [MainEv.printed apiKeyErrorMsg, MainEv.exited 1] ∧
    MainEv.networkAttempt ∉ mainStartup cliKey envKey restOfMain := by
  subst h1
  subst h2
  have hfatal : mainStartup none none restOfMain =
      [MainEv.printed apiKeyErrorMsg, MainEv.exited 1] := rfl
  refine ⟨hfatal, ?_⟩
  rw [hfatal]
  decide

/-- Witness for C6: with both sources of the key absent, even a rest of
main that would attempt a network call is never reached. -/
theorem missing_api_key_fatal_before_network_witness :
    mainStartup none none [MainEv.networkAttempt] =
      [MainEv.printed apiKeyErrorMsg, MainEv.exited 1] ∧
    MainEv.networkAttempt ∉ mainStartup none none [MainEv.networkAttempt] :=
  missing_api_key_fatal_before_network none none [MainEv.networkAttempt] rfl rfl

/-- The Wavespeed client: the api key and configured poll interval it is
constructed with, plus the state of the transport resource it owns —
whether it has been closed, and how many network calls it has issued. -/
structure WavespeedClient where
  api_key : String
  poll_interval : Nat
  closed : Bool
  network_calls : Nat
deriving DecidableEq, Repr

/-- Modelled from the spec: close() is the scoped release of the underlying
transport resource, idempotent and safe to call multiple times (spec 4.1);
it raises nothing and issues no network call. -/
def close (c : WavespeedClient) : WavespeedClient × Option RequestError :=
  if c.closed then (c, none)
  else ({ c with closed := true }, none)

/-- C7: close is idempotent and safe to call twice: neither call raises an
error, the second call leaves the client exactly as the first left it, and
no call changes the number of network calls issued. -/
theorem close_idempotent (c : WavespeedClient) :
    (close c).2 = none ∧
    (close (close c).1).2 = none ∧
    (close (close c).1).1 = (close c).1 ∧
    (close c).1.network_calls = c.network_calls ∧
    (close (close c).1).1.network_calls = c.network_calls := by
  cases h : c.closed <;> simp [close, h]

/-- Argparse semantics of a flag declared with action store_true: when the
flag is present on the command line the value stored is True, otherwise the
declared default is stored. -/
def storeTrue (present : Bool) (defaultValue : Bool) : Bool :=
  if present then true else defaultValue

/-- The --safety flag of generate_image.py: store_true with default True. -/
def generate_image_safety (present : Bool) : Bool := storeTrue present true

/-- The --safety flag of async_generate_image.py: store_true with default
True. -/
def async_generate_image_safety (present : Bool) : Bool := storeTrue present true

/-- The --safety flag of async_create_generate_image.py: store_true with
default True. -/
def async_create_safety (present : Bool) : Bool := storeTrue present true

/-- The --poll flag of async_create_generate_image.py: store_true with
default True. -/
def async_create_poll (present : Bool) : Bool := storeTrue present true

/-- Values of the free-form input object the example scripts send to the
model: strings, integers, rationals (for the float-valued fields) and
booleans. -/
inductive InputValue where
  | str (s : String)
  | int (n : Int)
  | rat (q : Rat)
  | bool (b : Bool)
deriving DecidableEq, Repr

/-- The parsed arguments the example scripts build their input object
from. -/
structure GenArgs where
  prompt : String
  strength : Rat
  size : String
  steps : Int
  guidance : Rat
  num_images : Int
  seed : Int
  safety : Bool
deriving DecidableEq, Repr

/-- The input object passed to create and run in all three example scripts,
keyed exactly as in the sources. -/
def buildInput (args : GenArgs) : List (String × InputValue) :=
  [("prompt", InputValue.str args.prompt),
   ("strength", InputValue.rat args.strength),
   ("size", InputValue.str args.size),
   ("num_inference_steps", InputValue.int args.steps),
   ("guidance_scale", InputValue.rat args.guidance),
   ("num_images", InputValue.int args.num_images),
   ("seed", InputValue.int args.seed),
   ("enable_safety_checker", InputValue.bool args.safety)]

/-- C8: because the safety and poll flags are declared store_true with
default True, every possible command line yields True for them in all
three scripts, and the enable_safety_checker field of the input object is
the constant True — the CLI layer cannot disable it. -/
theorem cli_flags_always_true (p1 p2 p3 p4 : Bool) (args : GenArgs) :
    generate_image_safety p1 = true ∧
    async_generate_image_safety p2 = true ∧
    async_create_safety p3 = true ∧
    async_create_poll p4 = true ∧
    List.lookup "enable_safety_checker"
        (buildInput { args with safety := generate_image_safety p1 }) =
      some (InputValue.bool true) := by
  refine ⟨?_, ?_, ?_, ?_, ?_⟩ <;>
    cases p1 <;>
    simp [generate_image_safety, async_generate_image_safety, async_create_safety,
      async_create_poll, storeTrue, buildInput, List.lookup]

/-- Events of the example entry functions that matter to resource cleanup:
printing, logging the exception, requesting process exit with a code, and
awaiting client.close(). -/
inductive ScriptEv where
  | printed (msg : String)
  | loggedException
  | exitRequested (code : Nat)
  | closedClient
deriving DecidableEq, Repr

/-- The try/except/finally shape shared by generate_image (both scripts)
and create_and_poll_image: the body runs; on an exception the handler logs
it, prints the message and requests exit code 1 (sys.exit raises, so the
finally still runs during unwinding); in every case the finally block
awaits client.close() last. -/
def tryExceptFinallyClose (bodyEvents : List ScriptEv)
    (bodyError : Option String) : List ScriptEv :=
  (match bodyError with
   | none => bodyEvents
   | some msg =>
      bodyEvents ++ [ScriptEv.loggedException,
        ScriptEv.printed (String.append "Error generating image: " msg),
        ScriptEv.exitRequested 1]) ++ [ScriptEv.closedClient]

/-- The event trace of generate_image in generate_image.py. -/
def generate_image_events (bodyEvents : List ScriptEv)
    (bodyError : Option String) : List ScriptEv :=
  tryExceptFinallyClose bodyEvents bodyError

/-- The event trace of generate_image in async_generate_image.py. -/
def async_generate_image_events (bodyEvents : List ScriptEv)
    (bodyError : Option String) : List ScriptEv :=
  tryExceptFinallyClose bodyEvents bodyError

/-- The event trace of create_and_poll_image in
async_create_generate_image.py. -/
def create_and_poll_image_events (bodyEvents : List ScriptEv)
    (bodyError : Option String) : List ScriptEv :=
  tryExceptFinallyClose bodyEvents bodyError

theorem getLast_append_single {α : Type} (l : List α) (a : α) :
    (l ++ [a]).getLast? = some a :=
  List.getLast?_concat l

/-- C10: in each of the three example entry functions, client.close() is
awaited on every execution path — it occurs in the trace, and it is the
last event, both when the body succeeds and when it raises and exit code 1
is requested. -/
theorem close_on_every_path (bodyEvents : List ScriptEv)
    (bodyError : Option String) :
    (ScriptEv.closedClient ∈ generate_image_events bodyEvents bodyError ∧
      (generate_image_events bodyEvents bodyError).getLast? =
        some ScriptEv.closedClient) ∧
    (ScriptEv.closedClient ∈ async_generate_image_events bodyEvents bodyError ∧
      (async_generate_image_events bodyEvents bodyError).getLast? =
        some ScriptEv.closedClient) ∧
    (ScriptEv.closedClient ∈ create_and_poll_image_events bodyEvents bodyError ∧
      (create_and_poll_image_events bodyEvents bodyError).getLast? =
        some ScriptEv.closedClient) := by
  refine ⟨⟨?_, ?_⟩, ⟨?_, ?_⟩, ⟨?_, ?_⟩⟩ <;>
    simp [generate_image_events, async_generate_image_events,
      create_and_poll_image_events, tryExceptFinallyClose, getLast_append_single]
